import Mathlib

/-!
Shallow embedding of the sftp-ssh-mcp server (src/index.ts).

The server exposes four tools (sftp_upload, sftp_download, sftp_list, exec).
Each tool handler builds one SSH connection config from process-wide argv
configuration, then runs a promise-based executor (`execSftpCommand` or
`execSshCommand`) that connects, performs one operation and settles the
promise.  We model each executor as a pure function from the remote side's
observable behaviour (which events fire, what data they carry) to the ordered
list of steps the code performs: connecting, opening the SFTP subsystem or
issuing the exec request, ending the connection, resolving or rejecting the
promise, and local file reads/writes done by the handlers.
-/

namespace SftpSshMcp

/-- JS whitespace, as recognised by `String.prototype.trim` and by the
implicit trimming of `Number(...)`: ASCII whitespace, NBSP, the Unicode
space separators, line/paragraph separators and the BOM. -/
def isJsWs (c : Char) : Bool :=
  c = ' ' || c = '\t' || c = '\n' || c = '\r' ||
  c.toNat = 0xB || c.toNat = 0xC || c.toNat = 0xA0 || c.toNat = 0x1680 ||
  (0x2000 ≤ c.toNat && c.toNat ≤ 0x200A) ||
  c.toNat = 0x2028 || c.toNat = 0x2029 || c.toNat = 0x202F ||
  c.toNat = 0x205F || c.toNat = 0x3000 || c.toNat = 0xFEFF

/-- `s.trim()` in JS: strip JS whitespace from both ends. -/
def jsTrim (s : String) : String :=
  ⟨((s.data.dropWhile isJsWs).reverse.dropWhile isJsWs).reverse⟩

/-- JS truthiness of an optional string value (`undefined` and `""` are
falsy, every other string is truthy). -/
def truthy : Option String → Bool
  | none => false
  | some s => s != ""

def isDecDigit (c : Char) : Bool := '0' ≤ c && c ≤ '9'

def isHexDigit (c : Char) : Bool :=
  isDecDigit c || ('a' ≤ c && c ≤ 'f') || ('A' ≤ c && c ≤ 'F')

/-- Optional exponent part of a JS decimal numeric literal:
empty, or `e`/`E`, an optional sign, and at least one digit. -/
def jsExpOk : List Char → Bool
  | [] => true
  | c :: rest =>
    if c = 'e' || c = 'E' then
      let rest2 := match rest with
        | s :: r => if s = '+' || s = '-' then r else s :: r
        | [] => []
      rest2 ≠ [] && rest2.all isDecDigit
    else false

/-- `StrUnsignedDecimalLiteral` of the JS `Number(string)` grammar:
`Infinity`, or digits with an optional fraction and exponent, or a
fraction with an exponent. -/
def jsUnsignedDecOk (l : List Char) : Bool :=
  if l = ['I','n','f','i','n','i','t','y'] then true
  else
    let d1 := l.takeWhile isDecDigit
    let r1 := l.dropWhile isDecDigit
    match r1 with
    | '.' :: r2 =>
      let d2 := r2.takeWhile isDecDigit
      let r3 := r2.dropWhile isDecDigit
      (d1 ≠ [] || d2 ≠ []) && jsExpOk r3
    | _ => d1 ≠ [] && jsExpOk r1

/-- Whether a (already trimmed) character list is a JS `StrNumericLiteral`:
the empty string (value 0), a signed decimal literal, or an unsigned
hex/octal/binary literal. -/
def jsNumericCore : List Char → Bool
  | [] => true
  | '+' :: r => jsUnsignedDecOk r
  | '-' :: r => jsUnsignedDecOk r
  | '0' :: 'x' :: r => r ≠ [] && r.all isHexDigit
  | '0' :: 'X' :: r => r ≠ [] && r.all isHexDigit
  | '0' :: 'o' :: r => r ≠ [] && r.all (fun c => '0' ≤ c && c ≤ '7')
  | '0' :: 'O' :: r => r ≠ [] && r.all (fun c => '0' ≤ c && c ≤ '7')
  | '0' :: 'b' :: r => r ≠ [] && r.all (fun c => c = '0' || c = '1')
  | '0' :: 'B' :: r => r ≠ [] && r.all (fun c => c = '0' || c = '1')
  | l => jsUnsignedDecOk l

/-- `isNaN(Number(s))` for a string `s`. -/
def jsNumberIsNaN (s : String) : Bool := !(jsNumericCore (jsTrim s).data)

def decVal (l : List Char) : Nat :=
  l.foldl (fun a c => a * 10 + (c.toNat - '0'.toNat)) 0

def hexDigitVal (c : Char) : Nat :=
  if isDecDigit c then c.toNat - '0'.toNat
  else if 'a' ≤ c && c ≤ 'f' then c.toNat - 'a'.toNat + 10
  else c.toNat - 'A'.toNat + 10

def hexVal (l : List Char) : Nat :=
  l.foldl (fun a c => a * 16 + hexDigitVal c) 0

/-- `parseInt(s)` with no radix argument: trim, optional sign, then either a
`0x`/`0X` hex prefix followed by hex digits, or leading decimal digits;
`none` models `NaN` (no digits consumed). -/
def jsParseInt (s : String) : Option Int :=
  let l := (jsTrim s).data
  let sign : Int := match l with
    | '-' :: _ => -1
    | _ => 1
  let l2 := match l with
    | '+' :: r => r
    | '-' :: r => r
    | _ => l
  match l2 with
  | '0' :: 'x' :: r =>
    let d := r.takeWhile isHexDigit
    if d = [] then none else some (sign * (hexVal d : Nat))
  | '0' :: 'X' :: r =>
    let d := r.takeWhile isHexDigit
    if d = [] then none else some (sign * (hexVal d : Nat))
  | _ =>
    let d := l2.takeWhile isDecDigit
    if d = [] then none else some (sign * (decVal d : Nat))

/-! ## Startup configuration (parseArgv / validateConfig) -/

/-- The argv-derived configuration record: each flag is `none` when absent
(`config.host` is `undefined`) or `some s` when `--flag=s` was given. -/
structure ArgvConfig where
  host : Option String
  port : Option String
  user : Option String
  password : Option String
  key : Option String
deriving DecidableEq, Repr

/-- `validateConfig`: the list of error strings accumulated; the process
throws (and does not start serving) iff this list is non-empty.  The port
check is `config.port && isNaN(Number(config.port))`. -/
def validateConfig (c : ArgvConfig) : List String :=
  (if !truthy c.host then ["Missing required --host"] else []) ++
  (if !truthy c.user then ["Missing required --user"] else []) ++
  (if truthy c.port && jsNumberIsNaN (c.port.getD "") then ["Invalid --port"] else [])

/-- `PORT = argvConfig.port ? parseInt(argvConfig.port) : 22`; `none` models
`NaN`. -/
def resolvedPORT (c : ArgvConfig) : Option Int :=
  if truthy c.port then jsParseInt (c.port.getD "") else some 22

/-! ## Session configuration -/

/-- The `sshConfig` object passed to `conn.connect`. -/
structure SshConfig where
  host : String
  port : Int
  username : String
  password : Option String
  privateKey : Option String
deriving DecidableEq, Repr

/-- The credential-selection block that each of the four tool handlers
repeats verbatim: `if (PASSWORD) sshConfig.password = PASSWORD;
else if (KEY) sshConfig.privateKey = await fs.readFile(KEY, 'utf8')`.
`keyData` is the content read from the key file (used only when the
private-key branch is taken). -/
def buildSshConfig (host : String) (port : Int) (user : String)
    (password key : Option String) (keyData : String) : SshConfig :=
  if truthy password then
    ⟨host, port, user, password, none⟩
  else if truthy key then
    ⟨host, port, user, none, some keyData⟩
  else
    ⟨host, port, user, none, none⟩

/-! ## Traces of observable steps -/

/-- A settled promise value: the `{content:[{type:'text',text}]}` objects are
modelled as `.text`, a download's `Buffer` as `.buffer` (a byte list). -/
inductive Value where
  | text (s : String)
  | buffer (b : List Nat)
deriving DecidableEq, Repr

/-- One entry of an SFTP `readdir` result. -/
structure DirEntry where
  filename : String
  longname : String
deriving DecidableEq, Repr

/-- An observable step performed while a tool call runs, in program order. -/
inductive Step where
  | readFile (path : String)
  | connect (cfg : SshConfig)
  | sftpOpen
  | execCmd (cmd : String)
  | connEnd
  | sftpWrite (data : List Nat)
  | resolve (v : Value)
  | reject (msg : String)
  | writeFile (path : String) (data : List Nat)
deriving DecidableEq, Repr

/-- The first resolution or rejection in a trace (a promise settles at most
once); `none` means the promise never settles. -/
def settleOf : List Step → Option (Except String Value)
  | [] => none
  | .resolve v :: _ => some (.ok v)
  | .reject m :: _ => some (.error m)
  | _ :: rest => settleOf rest

/-- How many times `conn.end()` is invoked in a trace. -/
def countEnds : List Step → Nat
  | [] => 0
  | .connEnd :: r => countEnds r + 1
  | _ :: r => countEnds r

/-- How many times `conn.connect(...)` is invoked in a trace. -/
def countConnects : List Step → Nat
  | [] => 0
  | .connect _ :: r => countConnects r + 1
  | _ :: r => countConnects r

/-- Whether the trace ever starts the requested remote operation (opens the
SFTP subsystem or issues the exec request). -/
def opAttempted : List Step → Bool
  | [] => false
  | .sftpOpen :: _ => true
  | .execCmd _ :: _ => true
  | _ :: r => opAttempted r

/-- Whether the trace ever writes a local file. -/
def hasWrite : List Step → Bool
  | [] => false
  | .writeFile _ _ :: _ => true
  | _ :: r => hasWrite r

deriving instance DecidableEq for Except

/-! ## execSftpCommand -/

/-- The remote side's behaviour once the connection is ready and the SFTP
subsystem opened: whether the upload write stream emits `close`, the chunks
the download read stream emits before `end` (and whether `end` fires at
all), and the outcome of `readdir`. -/
structure SftpRemote where
  uploadCloses : Bool
  downloadChunks : List (List Nat)
  downloadEnds : Bool
  readdir : Except String (List DirEntry)
deriving DecidableEq, Repr

/-- Which connection-level events fire for one `execSftpCommand` call:
the client's `error` event, an error from `conn.sftp`, or a ready
connection with the given remote behaviour. -/
inductive SftpOutcome where
  | connError (msg : String)
  | sftpError (msg : String)
  | ready (r : SftpRemote)
deriving DecidableEq, Repr

/-- `data = Buffer.concat([data, chunk])` folded over the chunks in arrival
order, starting from `Buffer.from('')`. -/
def bufConcat (chunks : List (List Nat)) : List Nat :=
  chunks.foldl (fun acc c => acc ++ c) []

/-- One formatted line of the list result: `filename (longname)`. -/
def fmtEntry (e : DirEntry) : String :=
  e.filename ++ " (" ++ e.longname ++ ")"

/-- The trace of `execSftpCommand(sshConfig, action, ...args)`.
`uploadData` is the first extra argument of the upload action,
`remotePath` the path argument of each action. -/
def execSftpCommand (cfg : SshConfig) (action : String) (uploadData : List Nat)
    (remotePath : String) (out : SftpOutcome) : List Step :=
  match out with
  | .connError m => [.connect cfg, .reject ("SFTP connection error: " ++ m)]
  | .sftpError m => [.connect cfg, .sftpOpen, .reject ("SFTP error: " ++ m), .connEnd]
  | .ready r =>
    [.connect cfg, .sftpOpen] ++
    (if action = "upload" then
      [.sftpWrite uploadData] ++
      (if r.uploadCloses then
        [.resolve (.text ("File uploaded to " ++ remotePath)), .connEnd]
      else [])
    else if action = "download" then
      (if r.downloadEnds then
        [.resolve (.buffer (bufConcat r.downloadChunks)), .connEnd]
      else [])
    else if action = "list" then
      (match r.readdir with
       | .ok l =>
         [.resolve (.text (String.intercalate "\n" (l.map fmtEntry))), .connEnd]
       | .error m => [.reject ("List error: " ++ m), .connEnd])
    else
      [.reject "Invalid SFTP action", .connEnd])

/-! ## execSshCommand -/

/-- Which events fire for one `execSshCommand` call: the client's `error`
event, an error from `conn.exec`, or a stream that emits the given stdout
and stderr chunks (each already decoded to text) and then closes with the
given exit code. -/
inductive SshOutcome where
  | connError (msg : String)
  | execError (msg : String)
  | streamClose (stdoutChunks stderrChunks : List String) (code : Int)
deriving DecidableEq, Repr

/-- `acc += chunk.toString()` folded over the chunks in arrival order. -/
def strConcat (l : List String) : String :=
  l.foldl (fun a c => a ++ c) ""

/-- The trace of `execSshCommand(sshConfig, command)`. -/
def execSshCommand (cfg : SshConfig) (command : String) (out : SshOutcome) :
    List Step :=
  match out with
  | .connError m => [.connect cfg, .reject ("SSH connection error: " ++ m)]
  | .execError m =>
    [.connect cfg, .execCmd command, .reject ("SSH exec error: " ++ m), .connEnd]
  | .streamClose so se code =>
    [.connect cfg, .execCmd command, .connEnd] ++
    (if strConcat se ≠ "" then
      [.reject ("Error (code " ++ toString code ++ "):\n" ++ strConcat se)]
    else
      [.resolve (.text (strConcat so))])

/-! ## Tool handlers

Each handler reads the process-wide configuration (HOST, PORT, USER,
PASSWORD, KEY), rebuilds the `sshConfig` object, runs the executor and
translates its settlement into the tool's result.  A handler result of
`none` models an invocation whose promise never settles; `some (.error m)`
models a thrown `McpError` with message `m`. -/

/-- The process-wide values assigned at startup from `argvConfig`. -/
structure Globals where
  HOST : String
  PORT : Int
  USER : String
  PASSWORD : Option String
  KEY : Option String
deriving DecidableEq, Repr

/-- Whether a handler takes the private-key branch (`!PASSWORD && KEY`). -/
def needsKeyRead (g : Globals) : Bool :=
  !truthy g.PASSWORD && truthy g.KEY

/-- The `sshConfig` a handler passes to the executor, given the content
read from the key file when that branch is taken. -/
def sshConfigOf (g : Globals) (keyData : String) : SshConfig :=
  buildSshConfig g.HOST g.PORT g.USER g.PASSWORD g.KEY keyData

/-- The local-file reads the credential-selection block performs: the key
file is read exactly when the private-key branch is taken. -/
def keySteps (g : Globals) : List Step :=
  if needsKeyRead g then [.readFile (g.KEY.getD "")] else []

/-- The outcome of the credential-selection block: reading the key file is
attempted (with outcome `keyRead`) exactly when the private-key branch is
taken. -/
def keyOutcome (g : Globals) (keyRead : Except String String) :
    Except String String :=
  if needsKeyRead g then keyRead else .ok ""

/-- The `exec` tool handler: rejects a blank command before anything else,
otherwise builds the config (reading the key file if needed, with outcome
`keyRead`) and awaits `execSshCommand`.  A rejected `McpError` is rethrown
as-is; other exceptions are wrapped as `Unexpected error: ...`. -/
def execTool (g : Globals) (command : String)
    (keyRead : Except String String) (out : SshOutcome) :
    List Step × Option (Except String Value) :=
  if jsTrim command = "" then
    ([], some (.error "Command must be a non-empty string."))
  else
    match keyOutcome g keyRead with
    | .error m =>
      (keySteps g, some (.error ("Unexpected error: " ++ m)))
    | .ok keyData =>
      let t := execSshCommand (sshConfigOf g keyData) command out
      (keySteps g ++ t, settleOf t)

/-- The `sftp_upload` tool handler: reads the local file first, then builds
the config and awaits `execSftpCommand 'upload'`; on success it returns the
confirmation text naming the remote path.  Errors thrown before the
executor runs are wrapped as `Upload failed: ...`. -/
def sftpUploadTool (g : Globals) (localPath remotePath : String)
    (localRead : Except String (List Nat)) (keyRead : Except String String)
    (out : SftpOutcome) : List Step × Option (Except String String) :=
  match localRead with
  | .error m =>
    ([.readFile localPath], some (.error ("Upload failed: " ++ m)))
  | .ok fileData =>
    match keyOutcome g keyRead with
    | .error m =>
      (.readFile localPath :: keySteps g,
       some (.error ("Upload failed: " ++ m)))
    | .ok keyData =>
      let t := execSftpCommand (sshConfigOf g keyData) "upload" fileData
        remotePath out
      (.readFile localPath :: (keySteps g ++ t),
       match settleOf t with
       | none => none
       | some (.error m) => some (.error m)
       | some (.ok _) => some (.ok ("File uploaded to " ++ remotePath)))

/-- The `sftp_download` tool handler: builds the config, awaits
`execSftpCommand 'download'`, and only when the resolved value is a
`Buffer` writes it to `localPath` and returns the confirmation text; a
resolved non-Buffer value is rejected without writing. -/
def sftpDownloadTool (g : Globals) (remotePath localPath : String)
    (keyRead : Except String String) (out : SftpOutcome) :
    List Step × Option (Except String String) :=
  match keyOutcome g keyRead with
  | .error m =>
    (keySteps g, some (.error ("Download failed: " ++ m)))
  | .ok keyData =>
    let t := execSftpCommand (sshConfigOf g keyData) "download" []
      remotePath out
    match settleOf t with
    | none => (keySteps g ++ t, none)
    | some (.error m) => (keySteps g ++ t, some (.error m))
    | some (.ok (.buffer b)) =>
      (keySteps g ++ t ++ [.writeFile localPath b],
       some (.ok ("File downloaded to " ++ localPath)))
    | some (.ok (.text _)) =>
      (keySteps g ++ t,
       some (.error "Download failed: 期望结果为 Buffer 类型，但得到 object"))

/-! ## Helper lemmas -/

theorem settleOf_append (l₁ l₂ : List Step) :
    settleOf (l₁ ++ l₂) =
      match settleOf l₁ with
      | some r => some r
      | none => settleOf l₂ := by
  induction l₁ with
  | nil => simp [settleOf]
  | cons a t ih => cases a <;> simp [settleOf, ih]

theorem countEnds_append (l₁ l₂ : List Step) :
    countEnds (l₁ ++ l₂) = countEnds l₁ + countEnds l₂ := by
  induction l₁ with
  | nil => simp [countEnds]
  | cons a t ih => cases a <;> (simp [countEnds, ih]; try omega)

theorem hasWrite_append (l₁ l₂ : List Step) :
    hasWrite (l₁ ++ l₂) = (hasWrite l₁ || hasWrite l₂) := by
  induction l₁ with
  | nil => simp [hasWrite]
  | cons a t ih => cases a <;> simp [hasWrite, ih]

/-- The executor traces never write a local file. -/
theorem hasWrite_execSftpCommand (cfg : SshConfig) (action : String)
    (d : List Nat) (remotePath : String) (out : SftpOutcome) :
    hasWrite (execSftpCommand cfg action d remotePath out) = false := by
  cases out with
  | connError m => simp [execSftpCommand, hasWrite]
  | sftpError m => simp [execSftpCommand, hasWrite]
  | ready r =>
    rcases r with ⟨uc, dc, de, rd⟩
    simp only [execSftpCommand]
    split
    · cases uc <;> simp [hasWrite, hasWrite_append]
    · split
      · cases de <;> simp [hasWrite, hasWrite_append]
      · split
        · rcases rd with l | m <;> simp [hasWrite, hasWrite_append]
        · simp [hasWrite, hasWrite_append]

theorem jsTrim_eq_empty_of_all_ws (s : String)
    (h : ∀ c ∈ s.data, isJsWs c = true) : jsTrim s = "" := by
  unfold jsTrim
  have h1 : s.data.dropWhile isJsWs = [] :=
    List.dropWhile_eq_nil_iff.mpr (by simpa using h)
  rw [h1]
  rfl

theorem bufConcat_eq_flatten (l : List (List Nat)) : bufConcat l = l.flatten := by
  suffices h : ∀ a : List Nat, l.foldl (fun x y => x ++ y) a = a ++ l.flatten by
    simpa [bufConcat] using h []
  induction l with
  | nil => intro a; simp
  | cons hd tl ih => intro a; simp [ih, List.append_assoc]

/-- Concrete objects used by the witnesses. -/
def cfg0 : SshConfig := ⟨"example.com", 22, "root", some "pw", none⟩

def g0 : Globals := ⟨"example.com", 22, "root", some "pw", none⟩

def r0 : SftpRemote :=
  ⟨true, [[1], [2, 3]], true, .ok [⟨"a", "la"⟩, ⟨"b", "lb"⟩]⟩

/-! ## Claims -/

/-- C1: For every Exec invocation whose stream closes with exit code `code`
after emitting the given stdout and stderr chunks: if any stderr bytes were
received (the accumulated stderr text is non-empty) the promise rejects with
the remote-exec error carrying the exit code and the full accumulated stderr
text — even when the code is 0 and stdout is non-empty; if no stderr bytes
were received it resolves with the full accumulated stdout text, regardless
of the exit code. -/
theorem exec_stderr_failure_policy (cfg : SshConfig) (cmd : String)
    (so se : List String) (code : Int) :
    (strConcat se ≠ "" →
      settleOf (execSshCommand cfg cmd (.streamClose so se code)) =
        some (.error ("Error (code " ++ toString code ++ "):\n" ++ strConcat se))) ∧
    (strConcat se = "" →
      settleOf (execSshCommand cfg cmd (.streamClose so se code)) =
        some (.ok (.text (strConcat so)))) := by
  constructor <;> intro h <;> simp [execSshCommand, settleOf, h]

theorem exec_stderr_failure_policy_witness :
    strConcat ["warn"] ≠ "" ∧
    settleOf (execSshCommand cfg0 "ls" (.streamClose ["out"] ["warn"] 0)) =
      some (.error "Error (code 0):\nwarn") := by
  have h := (exec_stderr_failure_policy cfg0 "ls" ["out"] ["warn"] 0).1 (by decide)
  refine ⟨by decide, ?_⟩
  rw [h]
  decide

/-- C2 counterexample: on the connection-error exit path both executors
settle (reject) without ever invoking `conn.end()`, so it is false that
every exit path closes the connection exactly once before the call
returns. -/
theorem session_close_counterexample :
    (settleOf (execSshCommand cfg0 "ls" (.connError "connect ECONNREFUSED"))).isSome = true ∧
    countEnds (execSshCommand cfg0 "ls" (.connError "connect ECONNREFUSED")) = 0 ∧
    (settleOf (execSftpCommand cfg0 "list" [] "/tmp" (.connError "connect ECONNREFUSED"))).isSome = true ∧
    countEnds (execSftpCommand cfg0 "list" [] "/tmp" (.connError "connect ECONNREFUSED")) = 0 := by
  decide

def isConnErrorSftp : SftpOutcome → Bool
  | .connError _ => true
  | _ => false

def isConnErrorSsh : SshOutcome → Bool
  | .connError _ => true
  | _ => false

/-- C2 amended: on every exit path of either executor that settles the
promise, the connection is closed exactly once before the call returns —
except the connection-error path, where the code performs no close of its
own; and no trace ever closes the connection more than once. -/
theorem session_closed_amended (cfg : SshConfig) (action remotePath cmd : String)
    (d : List Nat) (sf : SftpOutcome) (sh : SshOutcome) :
    countEnds (execSftpCommand cfg action d remotePath sf) ≤ 1 ∧
    ((settleOf (execSftpCommand cfg action d remotePath sf)).isSome = true →
      countEnds (execSftpCommand cfg action d remotePath sf) =
        if isConnErrorSftp sf then 0 else 1) ∧
    countEnds (execSshCommand cfg cmd sh) ≤ 1 ∧
    ((settleOf (execSshCommand cfg cmd sh)).isSome = true →
      countEnds (execSshCommand cfg cmd sh) =
        if isConnErrorSsh sh then 0 else 1) := by
  have hsftp : countEnds (execSftpCommand cfg action d remotePath sf) ≤ 1 ∧
      ((settleOf (execSftpCommand cfg action d remotePath sf)).isSome = true →
        countEnds (execSftpCommand cfg action d remotePath sf) =
          if isConnErrorSftp sf then 0 else 1) := by
    cases sf with
    | connError m => simp [execSftpCommand, settleOf, countEnds, isConnErrorSftp]
    | sftpError m => simp [execSftpCommand, settleOf, countEnds, isConnErrorSftp]
    | ready r =>
      rcases r with ⟨uc, dc, de, rd⟩
      simp only [execSftpCommand, isConnErrorSftp]
      split
      · cases uc <;>
          simp [settleOf, countEnds, settleOf_append, countEnds_append]
      · split
        · cases de <;>
            simp [settleOf, countEnds, settleOf_append, countEnds_append]
        · split
          · rcases rd with l | m <;>
              simp [settleOf, countEnds, settleOf_append, countEnds_append]
          · simp [settleOf, countEnds, settleOf_append, countEnds_append]
  have hssh : countEnds (execSshCommand cfg cmd sh) ≤ 1 ∧
      ((settleOf (execSshCommand cfg cmd sh)).isSome = true →
        countEnds (execSshCommand cfg cmd sh) =
          if isConnErrorSsh sh then 0 else 1) := by
    cases sh with
    | connError m => simp [execSshCommand, settleOf, countEnds, isConnErrorSsh]
    | execError m => simp [execSshCommand, settleOf, countEnds, isConnErrorSsh]
    | streamClose so se code =>
      by_cases h : strConcat se = "" <;>
        simp [execSshCommand, settleOf, countEnds, settleOf_append,
          countEnds_append, isConnErrorSsh, h]
  exact ⟨hsftp.1, hsftp.2, hssh.1, hssh.2⟩

theorem session_closed_amended_witness :
    countEnds (execSftpCommand cfg0 "list" [] "/tmp" (.ready r0)) = 1 ∧
    countEnds (execSshCommand cfg0 "ls" (.streamClose ["out"] [] 0)) = 1 := by
  have h := session_closed_amended cfg0 "list" "/tmp" "ls" [] (.ready r0)
    (.streamClose ["out"] [] 0)
  constructor
  · have h1 := h.2.1 (by decide)
    simpa using h1
  · have h2 := h.2.2.2 (by decide)
    simpa using h2

/-- C3: For every command string that is empty or consists only of
whitespace, the exec tool fails with the invalid-argument rejection
(`Command must be a non-empty string.`) and no connection to the remote
host is attempted before that failure. -/
theorem blank_command_rejected (g : Globals) (cmd : String)
    (keyRead : Except String String) (out : SshOutcome)
    (h : ∀ c ∈ cmd.data, isJsWs c = true) :
    (execTool g cmd keyRead out).2 =
      some (.error "Command must be a non-empty string.") ∧
    countConnects (execTool g cmd keyRead out).1 = 0 := by
  have ht := jsTrim_eq_empty_of_all_ws cmd h
  simp [execTool, ht, countConnects]

theorem blank_command_rejected_witness :
    (∀ c ∈ (" \t ".data), isJsWs c = true) ∧
    (execTool g0 " \t " (.ok "") (.connError "x")).2 =
      some (.error "Command must be a non-empty string.") ∧
    countConnects (execTool g0 " \t " (.ok "") (.connError "x")).1 = 0 := by
  refine ⟨by decide, ?_, ?_⟩
  · exact (blank_command_rejected g0 " \t " (.ok "") (.connError "x") (by decide)).1
  · exact (blank_command_rejected g0 " \t " (.ok "") (.connError "x") (by decide)).2

/-- C4: A successful list operation resolves with exactly the entries the
remote `readdir` returned, in the same order with no sorting, filtering or
deduplication, each formatted as the raw name followed by the long-form
description; a listing the remote side rejects is rejected with the
transfer error `List error: ...`. -/
theorem list_returns_entries_in_order (cfg : SshConfig) (d : List Nat)
    (remotePath : String) (r : SftpRemote) :
    (∀ l, r.readdir = .ok l →
      settleOf (execSftpCommand cfg "list" d remotePath (.ready r)) =
        some (.ok (.text (String.intercalate "\n"
          (l.map (fun e => e.filename ++ " (" ++ e.longname ++ ")")))))) ∧
    (∀ m, r.readdir = .error m →
      settleOf (execSftpCommand cfg "list" d remotePath (.ready r)) =
        some (.error ("List error: " ++ m))) := by
  constructor <;> intro x hx <;>
    (simp [execSftpCommand, settleOf, settleOf_append, hx]; try rfl)

theorem list_returns_entries_in_order_witness :
    r0.readdir = .ok [⟨"a", "la"⟩, ⟨"b", "lb"⟩] ∧
    settleOf (execSftpCommand cfg0 "list" [] "/tmp" (.ready r0)) =
      some (.ok (.text "a (la)\nb (lb)")) := by
  have h := (list_returns_entries_in_order cfg0 [] "/tmp" r0).1
    [⟨"a", "la"⟩, ⟨"b", "lb"⟩] (by decide)
  refine ⟨by decide, ?_⟩
  rw [h]
  decide

/-- C5: A download that reaches end-of-data resolves with one contiguous
buffer equal to the concatenation, in arrival order, of all chunks the read
stream emitted; while the stream has not signalled end-of-data the promise
is not settled. -/
theorem download_accumulates_chunks (cfg : SshConfig) (d : List Nat)
    (remotePath : String) (r : SftpRemote) :
    (r.downloadEnds = true →
      settleOf (execSftpCommand cfg "download" d remotePath (.ready r)) =
        some (.ok (.buffer r.downloadChunks.flatten))) ∧
    (r.downloadEnds = false →
      settleOf (execSftpCommand cfg "download" d remotePath (.ready r)) =
        none) := by
  constructor <;> intro h <;>
    simp [execSftpCommand, settleOf, settleOf_append, h, bufConcat_eq_flatten]

theorem download_accumulates_chunks_witness :
    r0.downloadEnds = true ∧
    settleOf (execSftpCommand cfg0 "download" [] "/tmp/f" (.ready r0)) =
      some (.ok (.buffer [1, 2, 3])) := by
  have h := (download_accumulates_chunks cfg0 [] "/tmp/f" r0).1 (by decide)
  refine ⟨by decide, ?_⟩
  rw [h]
  decide

/-- C6: The connection config built by the credential-selection block that
every tool handler repeats never contains both credentials; when a password
is configured it is used and the private key is ignored, and when only a
private key is configured the private key is used. -/
theorem auth_variant_exclusive (host : String) (port : Int) (user : String)
    (password key : Option String) (keyData : String) :
    (((buildSshConfig host port user password key keyData).password.isSome &&
      (buildSshConfig host port user password key keyData).privateKey.isSome) =
        false) ∧
    (truthy password = true →
      (buildSshConfig host port user password key keyData).password = password ∧
      (buildSshConfig host port user password key keyData).privateKey = none) ∧
    (truthy password = false → truthy key = true →
      (buildSshConfig host port user password key keyData).privateKey =
        some keyData ∧
      (buildSshConfig host port user password key keyData).password = none) := by
  refine ⟨?_, fun h => by simp [buildSshConfig, h],
    fun h1 h2 => by simp [buildSshConfig, h1, h2]⟩
  by_cases hp : truthy password <;> by_cases hk : truthy key <;>
    simp [buildSshConfig, hp, hk]

theorem auth_variant_exclusive_witness :
    truthy (some "p") = true ∧
    (buildSshConfig "example.com" 22 "root" (some "p") (some "k") "KEYDATA").password =
      some "p" ∧
    (buildSshConfig "example.com" 22 "root" (some "p") (some "k") "KEYDATA").privateKey =
      none := by
  have h := (auth_variant_exclusive "example.com" 22 "root" (some "p")
    (some "k") "KEYDATA").2.1 (by decide)
  exact ⟨by decide, h.1, h.2⟩

/-- C7: When the connection-level `error` event fires, each executor
rejects once with a connection-error message that carries the underlying
error message verbatim, exactly one connect was attempted (no retry), and
the requested operation (SFTP subsystem or exec request) is never
attempted. -/
theorem connection_error_single_failure (cfg : SshConfig)
    (cmd action remotePath : String) (d : List Nat) (m : String) :
    execSshCommand cfg cmd (.connError m) =
      [.connect cfg, .reject ("SSH connection error: " ++ m)] ∧
    countConnects (execSshCommand cfg cmd (.connError m)) = 1 ∧
    opAttempted (execSshCommand cfg cmd (.connError m)) = false ∧
    execSftpCommand cfg action d remotePath (.connError m) =
      [.connect cfg, .reject ("SFTP connection error: " ++ m)] ∧
    countConnects (execSftpCommand cfg action d remotePath (.connError m)) = 1 ∧
    opAttempted (execSftpCommand cfg action d remotePath (.connError m)) =
      false := by
  simp [execSshCommand, execSftpCommand, countConnects, opAttempted]

/-- C8 counterexample: a configuration whose port is `70000` — outside
1–65535 — passes `validateConfig` (no error is accumulated, the process
starts serving) and resolves to port 70000, refuting the claim that
validation fails on every port not an integer in 1–65535. -/
theorem port_range_not_validated :
    validateConfig ⟨some "example.com", some "70000", some "root", none, none⟩ =
      [] ∧
    resolvedPORT ⟨some "example.com", some "70000", some "root", none, none⟩ =
      some 70000 ∧
    ¬((1 : Int) ≤ 70000 ∧ (70000 : Int) ≤ 65535) := by
  decide

/-- C8 amended: startup validation fails exactly when host is missing or
empty, user is missing or empty, or a supplied non-empty port string is not
numeric (`Number(port)` is NaN) — the 1–65535 range and integrality are not
checked; when no port is supplied the port defaults to 22. -/
theorem validate_config_amended (c : ArgvConfig) :
    (validateConfig c = [] ↔
      (truthy c.host = true ∧ truthy c.user = true ∧
       (truthy c.port = true → jsNumberIsNaN (c.port.getD "") = false))) ∧
    (truthy c.port = false → resolvedPORT c = some 22) := by
  constructor
  · unfold validateConfig
    by_cases h1 : truthy c.host <;> by_cases h2 : truthy c.user <;>
      by_cases h3 : truthy c.port <;>
      by_cases h4 : jsNumberIsNaN (c.port.getD "") <;>
      simp [h1, h2, h3, h4]
  · intro h
    simp [resolvedPORT, h]

theorem validate_config_amended_witness :
    truthy (ArgvConfig.mk (some "example.com") none (some "root") none none).port =
      false ∧
    resolvedPORT ⟨some "example.com", none, some "root", none, none⟩ = some 22 ∧
    validateConfig ⟨some "example.com", none, some "root", none, none⟩ = [] := by
  refine ⟨by decide,
    (validate_config_amended ⟨some "example.com", none, some "root", none, none⟩).2
      (by decide), ?_⟩
  exact (validate_config_amended
    ⟨some "example.com", none, some "root", none, none⟩).1.mpr (by decide)

theorem hasWrite_keySteps (g : Globals) : hasWrite (keySteps g) = false := by
  unfold keySteps
  split <;> simp [hasWrite]

theorem countConnects_keySteps (g : Globals) : countConnects (keySteps g) = 0 := by
  unfold keySteps
  split <;> simp [countConnects]

theorem settleOf_keySteps (g : Globals) : settleOf (keySteps g) = none := by
  unfold keySteps
  split <;> simp [settleOf]

/-- C9: The download tool writes the local file only after the download
operation settled with a byte buffer — the write is the final step and its
content is exactly the resolved buffer; on every failing path (connection
error, transfer error, a never-settling stream, or a non-buffer result) no
local write ever happens. -/
theorem download_writes_local_file_only_on_success (g : Globals)
    (remotePath localPath : String) (keyRead : Except String String)
    (out : SftpOutcome) :
    (∀ e, (sftpDownloadTool g remotePath localPath keyRead out).2 =
        some (.error e) →
      hasWrite (sftpDownloadTool g remotePath localPath keyRead out).1 =
        false) ∧
    ((sftpDownloadTool g remotePath localPath keyRead out).2 = none →
      hasWrite (sftpDownloadTool g remotePath localPath keyRead out).1 =
        false) ∧
    (hasWrite (sftpDownloadTool g remotePath localPath keyRead out).1 = true →
      ∃ b, settleOf (sftpDownloadTool g remotePath localPath keyRead out).1 =
          some (.ok (.buffer b)) ∧
        (sftpDownloadTool g remotePath localPath keyRead out).1.getLast? =
          some (.writeFile localPath b) ∧
        (sftpDownloadTool g remotePath localPath keyRead out).2 =
          some (.ok ("File downloaded to " ++ localPath))) := by
  rcases hko : keyOutcome g keyRead with m | kd
  · simp [sftpDownloadTool, hko, hasWrite_keySteps]
  · rcases hst : settleOf (execSftpCommand (sshConfigOf g kd) "download" []
      remotePath out) with _ | e
    · simp [sftpDownloadTool, hko, hst, hasWrite_append, hasWrite_keySteps,
        hasWrite_execSftpCommand]
    · rcases e with m | v
      · simp [sftpDownloadTool, hko, hst, hasWrite_append, hasWrite_keySteps,
          hasWrite_execSftpCommand]
      · rcases v with s | b
        · simp [sftpDownloadTool, hko, hst, hasWrite_append, hasWrite_keySteps,
            hasWrite_execSftpCommand]
        · refine ⟨by simp [sftpDownloadTool, hko, hst],
            by simp [sftpDownloadTool, hko, hst], fun _ => ⟨b, ?_, ?_, ?_⟩⟩
          · simp [sftpDownloadTool, hko, hst, settleOf_append,
              settleOf_keySteps, settleOf]
          · simp [sftpDownloadTool, hko, hst, List.getLast?_append_cons]
          · simp [sftpDownloadTool, hko, hst]

theorem download_writes_local_file_only_on_success_witness :
    (sftpDownloadTool g0 "/r" "/l" (.ok "") (.connError "refused")).2 =
      some (.error "SFTP connection error: refused") ∧
    hasWrite (sftpDownloadTool g0 "/r" "/l" (.ok "") (.connError "refused")).1 =
      false := by
  refine ⟨by decide, ?_⟩
  exact (download_writes_local_file_only_on_success g0 "/r" "/l" (.ok "")
    (.connError "refused")).1 "SFTP connection error: refused" (by decide)

/-- C10: The upload tool reads the entire local file as its very first step,
before any connection is opened; when that read fails the invocation fails
with the wrapped read error and no connection is ever attempted. -/
theorem upload_reads_local_file_first (g : Globals)
    (localPath remotePath : String) (localRead : Except String (List Nat))
    (keyRead : Except String String) (out : SftpOutcome) :
    (sftpUploadTool g localPath remotePath localRead keyRead out).1.head? =
      some (.readFile localPath) ∧
    (∀ m, localRead = .error m →
      countConnects
        (sftpUploadTool g localPath remotePath localRead keyRead out).1 = 0 ∧
      (sftpUploadTool g localPath remotePath localRead keyRead out).2 =
        some (.error ("Upload failed: " ++ m))) := by
  constructor
  · rcases localRead with m | fileData
    · simp [sftpUploadTool]
    · rcases hko : keyOutcome g keyRead with m | kd <;> simp [sftpUploadTool, hko]
  · intro m hm
    subst hm
    simp [sftpUploadTool, countConnects]

theorem upload_reads_local_file_first_witness :
    countConnects (sftpUploadTool g0 "/a" "/b" (.error "ENOENT") (.ok "")
      (.connError "x")).1 = 0 ∧
    (sftpUploadTool g0 "/a" "/b" (.error "ENOENT") (.ok "")
      (.connError "x")).2 = some (.error "Upload failed: ENOENT") := by
  have h := (upload_reads_local_file_first g0 "/a" "/b" (.error "ENOENT")
    (.ok "") (.connError "x")).2 "ENOENT" rfl
  refine ⟨h.1, ?_⟩
  rw [h.2]
  decide

end SftpSshMcp
